/-
Verification of the multi-vector store, late-interaction reranker and
schema-migration manager (backend/app/db/milvus.py,
backend/app/db/migration_utils.py, backend/app/rag/utils.py).

Floats are modelled as exact rationals (`Rat`); the Milvus collection is
modelled as a list of rows; the Milvus client is modelled as a store state
carrying the collections plus fault-injection flags for the two I/O
failures the claims are about (query failure during backup, and
describe_collection failure during the compatibility check).
-/
import Mathlib

set_option maxRecDepth 4000

/-- One stored row of the collection.  The five media fields were added by
schema evolution; rows written before the fields existed lack them, which is
modelled by `Option` (`none` = field absent from the row / result dict). -/
structure VectorRecord where
  vector : List Rat
  image_id : String
  page_number : Int
  file_id : String
  media_type : Option String
  timestamp_start : Option Rat
  timestamp_end : Option Rat
  duration : Option Rat
  segment_id : Option String
deriving DecidableEq, Repr

/-- Inner product of two vectors (`np.dot` on equal-length float vectors). -/
def dotIP (q d : List Rat) : Rat :=
  (List.zipWith (· * ·) q d).sum

/-- Maximum of a list of rationals (`np.max` along an axis).  Only ever
applied to non-empty lists by the code (`rerank_single_doc` guards the
empty-group case before computing the score); the `[]` case is a junk value. -/
def listMax : List Rat → Rat
  | [] => 0
  | [x] => x
  | x :: y :: t => max x (listMax (y :: t))

/-- The spec's late-interaction similarity, written from the spec's words:
for every query vector take the maximum inner product against any of the
group's vectors, then sum these per-query maxima across all query vectors. -/
def lateInteractionScore (queries docVecs : List (List Rat)) : Rat :=
  (queries.map (fun q => listMax (docVecs.map (fun d => dotIP q d)))).sum

/-- The per-group metadata dict built inside `rerank_single_doc`.  The
`image_id` key is always present; `file_id`/`page_number` are always present
but may hold Python `None` (the dangling-group branch); the five media keys
are *absent* from the dict in the dangling-group branch, modelled by `none`. -/
structure GroupMeta where
  image_id : String
  file_id : Option String
  page_number : Option Int
  media_type : Option String
  timestamp_start : Option Rat
  timestamp_end : Option Rat
  duration : Option Rat
  segment_id : Option String
deriving DecidableEq, Repr

/-- `rerank_single_doc` (milvus.py): fetch every vector of the group
(`client.query` with `image_id in [...]`, `limit=1000`), return score `0.0`
with a bare metadata dict when the fetch is empty, otherwise compute
`np.dot(data, doc_vecs.T).max(1).sum()` and build the metadata from the
first fetched record (old-schema path: fixed defaults; new-schema path:
`.get` with defaults). -/
def rerank_single_doc (image_id : String) (data : List (List Rat))
    (rows : List VectorRecord) (use_old_schema : Bool) : Rat × GroupMeta :=
  let doc_colbert_vecs := (rows.filter (fun r => r.image_id == image_id)).take 1000
  match doc_colbert_vecs with
  | [] =>
    (0, { image_id := image_id, file_id := none, page_number := none,
          media_type := none, timestamp_start := none, timestamp_end := none,
          duration := none, segment_id := none })
  | first_record :: rest =>
    let metadata : GroupMeta :=
      if use_old_schema then
        { image_id := image_id, file_id := some first_record.file_id,
          page_number := some first_record.page_number,
          media_type := some "image", timestamp_start := some 0,
          timestamp_end := some 0, duration := some 0, segment_id := some "" }
      else
        { image_id := image_id, file_id := some first_record.file_id,
          page_number := some first_record.page_number,
          media_type := some (first_record.media_type.getD "image"),
          timestamp_start := some (first_record.timestamp_start.getD 0),
          timestamp_end := some (first_record.timestamp_end.getD 0),
          duration := some (first_record.duration.getD 0),
          segment_id := some (first_record.segment_id.getD "") }
    let score :=
      (data.map (fun q =>
        listMax (((first_record :: rest).map (fun r => r.vector)).map (fun d => dotIP q d)))).sum
    (score, metadata)

/-- One entry of the final result list returned by `_process_search_results`. -/
structure SearchEntry where
  score : Rat
  image_id : String
  file_id : Option String
  page_number : Option Int
  media_type : String
  timestamp_start : Rat
  timestamp_end : Rat
  duration : Rat
  segment_id : String
deriving DecidableEq, Repr

/-- Building one result dict from `(score, metadata)`.  Python indexes
`metadata["media_type"]` etc. directly, which raises `KeyError` when the key
is absent (the dangling-group metadata): modelled by `none`. -/
def buildEntry (p : Rat × GroupMeta) : Option SearchEntry :=
  match p.2.media_type, p.2.timestamp_start, p.2.timestamp_end,
        p.2.duration, p.2.segment_id with
  | some mt, some ts, some te, some du, some sid =>
    some { score := p.1, image_id := p.2.image_id, file_id := p.2.file_id,
           page_number := p.2.page_number, media_type := mt,
           timestamp_start := ts, timestamp_end := te, duration := du,
           segment_id := sid }
  | _, _, _, _, _ => none

/-- Python's list comprehension over `scores[:topk]`: the first missing key
aborts the whole call (`none`), otherwise all entries are produced. -/
def mapOption (f : α → Option β) : List α → Option (List β)
  | [] => some []
  | x :: xs =>
    match f x, mapOption f xs with
    | some y, some ys => some (y :: ys)
    | _, _ => none

/-- Descending order on scored groups: `scores.sort(key=lambda x: x[0],
reverse=True)`. -/
def scoreGe (a b : Rat × GroupMeta) : Prop := b.1 ≤ a.1

instance : DecidableRel scoreGe := fun a b => inferInstanceAs (Decidable (b.1 ≤ a.1))

instance : IsTotal (Rat × GroupMeta) scoreGe := ⟨fun a b => le_total b.1 a.1⟩

instance : IsTrans (Rat × GroupMeta) scoreGe := ⟨fun _ _ _ h1 h2 => le_trans h2 h1⟩

/-- `_process_search_results` (milvus.py): collect the set of distinct
`image_id`s over all coarse hits, score each one with `rerank_single_doc`
(the thread-pool fan-out joins all futures before sorting, so its effect is
that of a map; set-iteration and completion order are arbitrary in Python
and irrelevant to every property proved below), sort by score descending,
truncate to `topk` and build the result dicts. -/
def process_search_results (results : List (List VectorRecord))
    (data : List (List Rat)) (rows : List VectorRecord) (topk : Nat)
    (use_old_schema : Bool) : Option (List SearchEntry) :=
  let image_ids := (results.flatten.map (fun r => r.image_id)).dedup
  let scores := image_ids.map (fun gid => rerank_single_doc gid data rows use_old_schema)
  let sorted := scores.insertionSort scoreGe
  mapOption buildEntry (sorted.take topk)

/-- `media_type == '<m>'` — the media-type half of the Milvus filter expr. -/
def mediaOk (m : String) (r : VectorRecord) : Bool :=
  r.media_type == some m

/-- `timestamp_start >= <s> and timestamp_end <= <e>` — the time-range half
of the filter expr; a row lacking the fields cannot satisfy it. -/
def timeOk (s e : Rat) (r : VectorRecord) : Bool :=
  match r.timestamp_start, r.timestamp_end with
  | some a, some b => decide (s ≤ a) && decide (b ≤ e)
  | _, _ => false

/-- Filter-expression building of `_search_with_new_schema` (milvus.py):
no condition, one condition, or the two conditions combined with `and`.
(`none` models an absent / falsy filter argument.) -/
def matchesFilters (mf : Option String) (tf : Option (Rat × Rat))
    (r : VectorRecord) : Bool :=
  match mf, tf with
  | none, none => true
  | some m, none => mediaOk m r
  | none, some (s, e) => timeOk s e r
  | some m, some (s, e) => mediaOk m r && timeOk s e r

/-- Ranking of the coarse ANN search: rows ordered by inner product with the
query, descending (`metric_type: "IP"`). -/
def ipGe (q : List Rat) (a b : VectorRecord) : Prop :=
  dotIP q b.vector ≤ dotIP q a.vector

instance (q : List Rat) : DecidableRel (ipGe q) :=
  fun a b => inferInstanceAs (Decidable (dotIP q b.vector ≤ dotIP q a.vector))

/-- `client.search` over all query vectors: per query vector, the rows
satisfying the filter expr ranked by inner product, truncated to the
hardcoded coarse `limit=int(50)`. -/
def coarse_search (rows : List VectorRecord) (data : List (List Rat))
    (mf : Option String) (tf : Option (Rat × Rat)) : List (List VectorRecord) :=
  data.map (fun q => ((rows.filter (matchesFilters mf tf)).insertionSort (ipGe q)).take 50)

/-- `_search_with_new_schema`: filtered coarse search, then
`_process_search_results` with the rich output fields. -/
def search_with_new_schema (rows : List VectorRecord) (data : List (List Rat))
    (topk : Nat) (mf : Option String) (tf : Option (Rat × Rat)) :
    Option (List SearchEntry) :=
  process_search_results (coarse_search rows data mf tf) data rows topk false

/-- `_search_with_old_schema`: unfiltered coarse search (the legacy path
takes no filter arguments), then `_process_search_results` with
`use_old_schema=True`. -/
def search_with_old_schema (rows : List VectorRecord) (data : List (List Rat))
    (topk : Nat) : Option (List SearchEntry) :=
  process_search_results (coarse_search rows data none none) data rows topk true

/-- `MilvusManager.search`: try the new-schema path; any exception falls
back to the old-schema path (modelled: a `none` from the new-schema pipeline
selects the fallback). -/
def MilvusManager.search (rows : List VectorRecord) (data : List (List Rat))
    (topk : Nat) (mf : Option String) (tf : Option (Rat × Rat)) :
    Option (List SearchEntry) :=
  match search_with_new_schema rows data topk mf tf with
  | some out => some out
  | none => search_with_old_schema rows data topk

/-- The argument dict of `MilvusManager.insert`; the optional keys are read
with `data.get(key, default)`. -/
structure InsertData where
  colqwen_vecs : List (List Rat)
  image_id : String
  page_number : Int
  file_id : String
  media_type : Option String := none
  timestamp_start : Option Rat := none
  timestamp_end : Option Rat := none
  duration : Option Rat := none
  segment_id : Option String := none
deriving DecidableEq, Repr

/-- `MilvusManager.insert`: one row per vector of `colqwen_vecs`, written in
a single bulk `client.insert` call; every row of the call carries the same
`image_id`, `page_number`, `file_id` and media metadata. -/
def MilvusManager.insert (data : InsertData) : List VectorRecord :=
  data.colqwen_vecs.map (fun v =>
    { vector := v, image_id := data.image_id, page_number := data.page_number,
      file_id := data.file_id,
      media_type := some (data.media_type.getD "image"),
      timestamp_start := some (data.timestamp_start.getD 0),
      timestamp_end := some (data.timestamp_end.getD 0),
      duration := some (data.duration.getD 0),
      segment_id := some (data.segment_id.getD "") })

/-- `insert_to_milvus` (rag/utils.py): one `MilvusManager.insert` call per
embedding, with `page_number = i`, the embedding's position in the file's
sequence, and `image_id = image_ids[i]`. -/
def insert_to_milvus (embeddings : List (List (List Rat)))
    (image_ids : List String) (file_id : String) : List (List VectorRecord) :=
  embeddings.enum.map (fun p =>
    MilvusManager.insert
      { colqwen_vecs := p.2, image_id := (image_ids.get? p.1).getD "",
        page_number := (p.1 : Int), file_id := file_id })

/-- One Milvus collection: its schema's field names, its rows, and the
vector dimension it was created with. -/
structure Collection where
  fields : List String
  rows : List VectorRecord
  dim : Nat
deriving DecidableEq, Repr

/-- The Milvus client, modelled as the named collections plus two
fault-injection flags: `queryFails` makes every `client.query` raise (the
backup-read failure of the claims) and `describeFails` makes
`client.describe_collection` raise (the CHECK-phase failure). -/
structure StoreState where
  collections : List (String × Collection)
  queryFails : Bool := false
  describeFails : Bool := false
deriving DecidableEq, Repr

def hasCollection (st : StoreState) (name : String) : Bool :=
  (st.collections.lookup name).isSome

def getCollection (st : StoreState) (name : String) : Option Collection :=
  st.collections.lookup name

def getRows (st : StoreState) (name : String) : List VectorRecord :=
  ((st.collections.lookup name).map (fun c => c.rows)).getD []

def getFields (st : StoreState) (name : String) : List String :=
  ((st.collections.lookup name).map (fun c => c.fields)).getD []

/-- `client.drop_collection`. -/
def dropCollection (st : StoreState) (name : String) : StoreState :=
  { st with collections := st.collections.filter (fun p => !(p.1 == name)) }

/-- `client.create_collection` at the raw-client level: the collection is
(re)placed with the given schema and no rows. -/
def setCollection (st : StoreState) (name : String) (c : Collection) : StoreState :=
  { st with collections := st.collections.filter (fun p => !(p.1 == name)) ++ [(name, c)] }

/-- `client.insert`: append the rows to the named collection. -/
def insertRows (st : StoreState) (name : String) (recs : List VectorRecord) : StoreState :=
  { st with collections := st.collections.map (fun p =>
      if p.1 == name then (p.1, { p.2 with rows := p.2.rows ++ recs }) else p) }

/-- The five legacy schema fields added by `create_collection`. -/
def legacySchemaFields : List String :=
  ["pk", "vector", "image_id", "page_number", "file_id"]

/-- The five fields `check_schema_compatibility` requires
(`required_new_fields` in migration_utils.py). -/
def requiredNewFields : List String :=
  ["media_type", "timestamp_start", "timestamp_end", "duration", "segment_id"]

/-- The full field set of the schema built by `create_collection`. -/
def newSchemaFields : List String :=
  legacySchemaFields ++ requiredNewFields

/-- The record conversion shared by `_restore_collection_data` (milvus.py)
and `_restore_with_new_schema` (migration_utils.py): legacy fields carried
over verbatim, every new field filled with `record.get(key, default)`. -/
def migrateRecord (r : VectorRecord) : VectorRecord :=
  { r with media_type := some (r.media_type.getD "image"),
           timestamp_start := some (r.timestamp_start.getD 0),
           timestamp_end := some (r.timestamp_end.getD 0),
           duration := some (r.duration.getD 0),
           segment_id := some (r.segment_id.getD "") }

/-- `MilvusManager._backup_collection_data`: `None` when the collection is
missing, `None` when the query raises (the whole body is wrapped in
`try/except` returning `None`), otherwise all rows (one query with
`limit=100000`). -/
def backup_collection_data (st : StoreState) (name : String) :
    Option (List VectorRecord) :=
  if !hasCollection st name then none
  else if st.queryFails then none
  else some (getRows st name)

/-- `MilvusManager.create_collection`: optionally back up the existing rows
(failures only logged), drop any existing collection, create the new-schema
collection with a fresh index, and restore the backup (each restored row
defaulted via `migrateRecord`). -/
def MilvusManager.create_collection (st : StoreState) (name : String)
    (dim : Nat) (migrate_existing : Bool) : StoreState :=
  let existing_data :=
    if hasCollection st name && migrate_existing then backup_collection_data st name
    else none
  let st1 := if hasCollection st name then dropCollection st name else st
  let st2 := setCollection st1 name { fields := newSchemaFields, rows := [], dim := dim }
  match existing_data with
  | some d => insertRows st2 name (d.map migrateRecord)
  | none => st2

/-- The dict returned by `check_schema_compatibility`; `exists?` models the
`'exists'` key (`exists` is reserved in Lean). -/
structure CompatResult where
  exists? : Bool
  compatible : Bool
  needs_migration : Bool
  missing_fields : List String := []
  error : Option String := none
  message : String
deriving DecidableEq, Repr

/-- `DatabaseMigrationManager.check_schema_compatibility`: missing
collection → "can create new"; `describe_collection` raising → the
except-branch dict (note: `needs_migration` is `False` there); otherwise
compare the live field set against `requiredNewFields`. -/
def DatabaseMigrationManager.check_schema_compatibility (st : StoreState)
    (name : String) : CompatResult :=
  if !hasCollection st name then
    { exists? := false, compatible := true, needs_migration := false,
      message := "Collection does not exist, can create new" }
  else if st.describeFails then
    { exists? := false, compatible := false, needs_migration := false,
      error := some "describe_collection failed",
      message := "Error checking compatibility: describe_collection failed" }
  else
    let existing_fields := getFields st name
    let missing := requiredNewFields.filter (fun f => !(existing_fields.contains f))
    if missing.isEmpty then
      { exists? := true, compatible := true, needs_migration := false,
        message := "Collection is compatible with new schema" }
    else
      { exists? := true, compatible := false, needs_migration := true,
        missing_fields := missing,
        message := s!"Collection exists but missing fields: {missing}" }

/-- The `migration_result` dict of `safe_migrate_collection`. -/
structure MigrationResult where
  success : Bool := false
  backup_created : Bool := false
  data_migrated : Bool := false
  records_processed : Nat := 0
  errors : List String := []
  message : String := ""
deriving DecidableEq, Repr

/-- `DatabaseMigrationManager._create_safe_backup`: pages through all rows
in batches of 1000 (offset cursor until a short page); the net effect of the
loop is all rows. The whole loop is wrapped in `try/except` returning
`None`, so any query failure yields `None`. -/
def create_safe_backup (st : StoreState) (name : String) :
    Option (List VectorRecord) :=
  if st.queryFails then none else some (getRows st name)

/-- `DatabaseMigrationManager._restore_with_new_schema`: every backed-up row
is converted with the shared default-filling conversion and inserted in
batches of 100; the net effect is one append of all converted rows, and the
return value is the number of rows inserted. -/
def restore_with_new_schema (st : StoreState) (name : String)
    (backup_data : List VectorRecord) : Nat × StoreState :=
  (backup_data.length, insertRows st name (backup_data.map migrateRecord))

/-- `DatabaseMigrationManager.safe_migrate_collection`: CHECK (no-op with
`success=True` when `needs_migration` is false), then backup (a `None`
backup is only logged — "proceeding without backup"), then drop, recreate
with the new schema, and restore the backup if one exists. -/
def DatabaseMigrationManager.safe_migrate_collection (st : StoreState)
    (name : String) (dim : Nat) (backup : Bool) :
    MigrationResult × StoreState :=
  let compatibility := DatabaseMigrationManager.check_schema_compatibility st name
  if !compatibility.needs_migration then
    ({ success := true, message := compatibility.message }, st)
  else
    let backup_data :=
      if backup && compatibility.exists? then create_safe_backup st name else none
    let st1 := if compatibility.exists? then dropCollection st name else st
    let st2 := MilvusManager.create_collection st1 name dim false
    match backup_data with
    | some d =>
      let (migrated_count, st3) := restore_with_new_schema st2 name d
      ({ success := true, backup_created := true, data_migrated := true,
         records_processed := migrated_count,
         message := s!"Successfully migrated collection {name}" }, st3)
    | none =>
      ({ success := true, backup_created := false,
         message := s!"Successfully migrated collection {name}" }, st2)

/-- The dict returned by `validate_migration`. -/
structure ValidationResult where
  success : Bool
  record_count : Option Nat := none
  error : Option String := none
  message : String
deriving DecidableEq, Repr

/-- `DatabaseMigrationManager.validate_migration`: fail when the collection
is missing; otherwise read `row_count` from the collection stats and fail
only when an explicit `expected_count` was supplied and differs. -/
def DatabaseMigrationManager.validate_migration (st : StoreState)
    (name : String) (expected_count : Option Nat) : ValidationResult :=
  if !hasCollection st name then
    { success := false, message := "Collection does not exist after migration" }
  else
    let actual_count := (getRows st name).length
    match expected_count with
    | some e =>
      if actual_count != e then
        { success := false, record_count := some actual_count,
          message := s!"Record count mismatch: expected {e}, got {actual_count}" }
      else
        { success := true, record_count := some actual_count,
          message := s!"Migration validation passed, {actual_count} records found" }
    | none =>
      { success := true, record_count := some actual_count,
        message := s!"Migration validation passed, {actual_count} records found" }

/-- The combined outcome of `perform_safe_migration`. -/
structure PerformOutcome where
  result : MigrationResult
  validation : Option ValidationResult
  state : StoreState
deriving DecidableEq, Repr

/-- `perform_safe_migration` (migration_utils.py): run
`safe_migrate_collection(name, dim, backup=True)` and, only when it reports
success, run `validate_migration(name)` — with *no* expected count. -/
def perform_safe_migration (st : StoreState) (name : String) (dim : Nat) :
    PerformOutcome :=
  let (result, st1) := DatabaseMigrationManager.safe_migrate_collection st name dim true
  if result.success then
    { result := result,
      validation := some (DatabaseMigrationManager.validate_migration st1 name none),
      state := st1 }
  else
    { result := result, validation := none, state := st1 }

/-! ### Association-list lemmas for the store state -/

lemma lookup_filter_self (l : List (String × Collection)) (name : String) :
    (l.filter (fun p => !(p.1 == name))).lookup name = none := by
  induction l with
  | nil => rfl
  | cons h t ih =>
    by_cases hh : h.1 = name
    · simpa [hh] using ih
    · simp [List.filter_cons, hh, List.lookup, ih,
        beq_eq_false_iff_ne.mpr (Ne.symm hh)]

lemma lookup_filter_append (l : List (String × Collection)) (name : String)
    (c : Collection) :
    ((l.filter (fun p => !(p.1 == name))) ++ [(name, c)]).lookup name = some c := by
  induction l with
  | nil => simp [List.lookup]
  | cons h t ih =>
    by_cases hh : h.1 = name
    · simpa [hh] using ih
    · simp [List.filter_cons, hh, List.lookup, ih,
        beq_eq_false_iff_ne.mpr (Ne.symm hh)]

lemma hasCollection_dropCollection_self (st : StoreState) (name : String) :
    hasCollection (dropCollection st name) name = false := by
  simp [hasCollection, dropCollection, lookup_filter_self]

lemma lookup_setCollection_self (st : StoreState) (name : String) (c : Collection) :
    (setCollection st name c).collections.lookup name = some c := by
  simp [setCollection, lookup_filter_append]

lemma hasCollection_setCollection_self (st : StoreState) (name : String)
    (c : Collection) :
    hasCollection (setCollection st name c) name = true := by
  simp [hasCollection, lookup_setCollection_self]

lemma getRows_setCollection_self (st : StoreState) (name : String) (c : Collection) :
    getRows (setCollection st name c) name = c.rows := by
  simp [getRows, lookup_setCollection_self]

/-! ### Concrete store states used by counterexamples and witnesses -/

/-- A pre-migration row: none of the five media fields exist. -/
def legacyRec : VectorRecord :=
  { vector := [1], image_id := "g", page_number := 0, file_id := "f",
    media_type := none, timestamp_start := none, timestamp_end := none,
    duration := none, segment_id := none }

/-- A store holding one legacy-schema collection `"c"` with one row, whose
`client.query` raises (the backup-read failure). -/
def stLegacy : StoreState :=
  { collections := [("c", { fields := legacySchemaFields, rows := [legacyRec], dim := 1 })],
    queryFails := true, describeFails := false }

/-- A store holding one new-schema collection `"c"` with one row, with no
injected faults. -/
def stCompat : StoreState :=
  { collections := [("c", { fields := newSchemaFields,
                            rows := [migrateRecord legacyRec], dim := 1 })],
    queryFails := false, describeFails := false }

/-- A store holding one legacy-schema collection `"c"` whose
`describe_collection` raises. -/
def stDescFail : StoreState :=
  { collections := [("c", { fields := legacySchemaFields, rows := [legacyRec], dim := 1 })],
    queryFails := false, describeFails := true }

/-! ### C1 -/

/-- C1 counterexample: on a collection that needs migration, the backup
read fails (`create_safe_backup` returns `None`), yet
`safe_migrate_collection` still drops and recreates the collection: the one
existing row is gone afterwards and the result reports success.  This
refutes "backup failure never proceeds to DROP". -/
theorem backup_failure_drops_data_cx :
    stLegacy.queryFails = true
    ∧ create_safe_backup stLegacy "c" = none
    ∧ (DatabaseMigrationManager.safe_migrate_collection stLegacy "c" 1 true).1.success = true
    ∧ getRows stLegacy "c" ≠ []
    ∧ getRows (DatabaseMigrationManager.safe_migrate_collection stLegacy "c" 1 true).2 "c" = [] := by
  decide

/-- C1 (amended): if the backup read fails while the collection needs
migration, `safe_migrate_collection` proceeds anyway — the old collection is
dropped and recreated empty (its rows are lost) and the result still reports
`success=True` with `backup_created=False`. -/
theorem backup_failure_proceeds_to_drop (st : StoreState) (name : String) (dim : Nat)
    (hhas : hasCollection st name = true)
    (hdesc : st.describeFails = false)
    (hmiss : ¬ ∀ f ∈ requiredNewFields, f ∈ getFields st name)
    (hq : st.queryFails = true) :
    (DatabaseMigrationManager.safe_migrate_collection st name dim true).1.success = true
    ∧ (DatabaseMigrationManager.safe_migrate_collection st name dim true).1.backup_created = false
    ∧ hasCollection (DatabaseMigrationManager.safe_migrate_collection st name dim true).2 name = true
    ∧ getRows (DatabaseMigrationManager.safe_migrate_collection st name dim true).2 name = [] := by
  simp [DatabaseMigrationManager.safe_migrate_collection,
    DatabaseMigrationManager.check_schema_compatibility, hhas, hdesc, hmiss,
    create_safe_backup, hq, MilvusManager.create_collection,
    hasCollection_dropCollection_self, hasCollection_setCollection_self,
    getRows_setCollection_self]

theorem backup_failure_proceeds_to_drop_witness :
    (DatabaseMigrationManager.safe_migrate_collection stLegacy "c" 1 true).1.success = true
    ∧ (DatabaseMigrationManager.safe_migrate_collection stLegacy "c" 1 true).1.backup_created = false
    ∧ hasCollection (DatabaseMigrationManager.safe_migrate_collection stLegacy "c" 1 true).2 "c" = true
    ∧ getRows (DatabaseMigrationManager.safe_migrate_collection stLegacy "c" 1 true).2 "c" = [] :=
  backup_failure_proceeds_to_drop stLegacy "c" 1 (by decide) (by decide)
    (by decide) (by decide)

/-! ### C8 -/

lemma check_compatible (st : StoreState) (name : String)
    (hhas : hasCollection st name = true)
    (hdesc : st.describeFails = false)
    (hcompat : ∀ f ∈ requiredNewFields, f ∈ getFields st name) :
    DatabaseMigrationManager.check_schema_compatibility st name =
      { exists? := true, compatible := true, needs_migration := false,
        message := "Collection is compatible with new schema" } := by
  have hnil : requiredNewFields.filter (fun f => !((getFields st name).contains f)) = [] :=
    List.filter_eq_nil_iff.mpr (fun a ha => by simpa using hcompat a ha)
  simp [DatabaseMigrationManager.check_schema_compatibility, hhas, hdesc, hnil]
  exact hcompat

/-- C8 (confirmed): on a collection that already has every expected field,
`safe_migrate_collection` is a no-op reporting success with the
"already compatible" message and an unchanged store; running it twice in a
row gives the same no-op both times, with the row count unchanged. -/
theorem migration_idempotent_on_compatible (st : StoreState) (name : String)
    (dim : Nat) (b : Bool)
    (hhas : hasCollection st name = true)
    (hdesc : st.describeFails = false)
    (hcompat : ∀ f ∈ requiredNewFields, f ∈ getFields st name) :
    DatabaseMigrationManager.safe_migrate_collection st name dim b
      = ({ success := true, message := "Collection is compatible with new schema" }, st)
    ∧ DatabaseMigrationManager.safe_migrate_collection
        (DatabaseMigrationManager.safe_migrate_collection st name dim b).2 name dim b
      = ({ success := true, message := "Collection is compatible with new schema" }, st)
    ∧ getRows (DatabaseMigrationManager.safe_migrate_collection st name dim b).2 name
      = getRows st name := by
  have h1 : DatabaseMigrationManager.safe_migrate_collection st name dim b
      = ({ success := true, message := "Collection is compatible with new schema" }, st) := by
    simp [DatabaseMigrationManager.safe_migrate_collection,
      check_compatible st name hhas hdesc hcompat]
  exact ⟨h1, by rw [h1]; exact h1, by rw [h1]⟩

theorem migration_idempotent_on_compatible_witness :
    DatabaseMigrationManager.safe_migrate_collection stCompat "c" 1 true
      = ({ success := true, message := "Collection is compatible with new schema" }, stCompat)
    ∧ DatabaseMigrationManager.safe_migrate_collection
        (DatabaseMigrationManager.safe_migrate_collection stCompat "c" 1 true).2 "c" 1 true
      = ({ success := true, message := "Collection is compatible with new schema" }, stCompat)
    ∧ getRows (DatabaseMigrationManager.safe_migrate_collection stCompat "c" 1 true).2 "c"
      = getRows stCompat "c" :=
  migration_idempotent_on_compatible stCompat "c" 1 true (by decide) (by decide)
    (by decide)

/-! ### C10 -/

/-- C10 (confirmed): when `describe_collection` raises during the CHECK
phase, `check_schema_compatibility` returns `needs_migration=False`, and
`safe_migrate_collection` therefore reports `success=True` while migrating
nothing and leaving the store untouched — the CHECK-phase error is reported
to the caller as a successful no-op. -/
theorem check_error_yields_successful_noop (st : StoreState) (name : String)
    (dim : Nat) (b : Bool)
    (hdesc : st.describeFails = true)
    (hhas : hasCollection st name = true) :
    (DatabaseMigrationManager.check_schema_compatibility st name).needs_migration = false
    ∧ (DatabaseMigrationManager.check_schema_compatibility st name).error.isSome = true
    ∧ (DatabaseMigrationManager.safe_migrate_collection st name dim b).1.success = true
    ∧ (DatabaseMigrationManager.safe_migrate_collection st name dim b).1.data_migrated = false
    ∧ (DatabaseMigrationManager.safe_migrate_collection st name dim b).2 = st := by
  simp [DatabaseMigrationManager.safe_migrate_collection,
    DatabaseMigrationManager.check_schema_compatibility, hhas, hdesc]

theorem check_error_yields_successful_noop_witness :
    (DatabaseMigrationManager.check_schema_compatibility stDescFail "c").needs_migration = false
    ∧ (DatabaseMigrationManager.check_schema_compatibility stDescFail "c").error.isSome = true
    ∧ (DatabaseMigrationManager.safe_migrate_collection stDescFail "c" 1 true).1.success = true
    ∧ (DatabaseMigrationManager.safe_migrate_collection stDescFail "c" 1 true).1.data_migrated = false
    ∧ (DatabaseMigrationManager.safe_migrate_collection stDescFail "c" 1 true).2 = stDescFail :=
  check_error_yields_successful_noop stDescFail "c" 1 true (by decide) (by decide)

/-! ### C7 -/

/-- C7 counterexample: a completed migration (`perform_safe_migration` on a
legacy collection of 1 row whose backup read fails) ends with 0 rows where
there was 1 pre-migration row, yet the VALIDATE phase reports success: the
count mismatch is not reported as a failure, because
`perform_safe_migration` never passes an expected count. -/
theorem perform_migration_count_mismatch_cx :
    (getRows stLegacy "c").length = 1
    ∧ (perform_safe_migration stLegacy "c" 1).result.success = true
    ∧ ((perform_safe_migration stLegacy "c" 1).validation.map (fun v => v.success)) = some true
    ∧ ((perform_safe_migration stLegacy "c" 1).validation.bind (fun v => v.record_count)) = some 0 := by
  decide

/-- C7 (amended): `validate_migration` compares the row count only when an
explicit expected count is supplied, and then reports a mismatch as failure;
`perform_safe_migration` invokes it with *no* expected count, so after a
successful migration the validation merely checks existence and reports the
row count — a pre/post-migration count mismatch is not flagged. -/
theorem validate_migration_expected_count (st : StoreState) (name : String)
    (dim : Nat) (e : Nat) :
    (hasCollection st name = true → (getRows st name).length ≠ e →
      (DatabaseMigrationManager.validate_migration st name (some e)).success = false)
    ∧ (hasCollection st name = true →
      (DatabaseMigrationManager.validate_migration st name none).success = true)
    ∧ ((perform_safe_migration st name dim).validation =
        if (DatabaseMigrationManager.safe_migrate_collection st name dim true).1.success then
          some (DatabaseMigrationManager.validate_migration
            (DatabaseMigrationManager.safe_migrate_collection st name dim true).2 name none)
        else none) := by
  refine ⟨fun hhas hne => ?_, fun hhas => ?_, ?_⟩
  · simp [DatabaseMigrationManager.validate_migration, hhas, hne]
  · simp [DatabaseMigrationManager.validate_migration, hhas]
  · simp only [perform_safe_migration]
    split <;> rfl

theorem validate_migration_expected_count_witness :
    (DatabaseMigrationManager.validate_migration stCompat "c" (some 5)).success = false
    ∧ (DatabaseMigrationManager.validate_migration stCompat "c" none).success = true :=
  ⟨(validate_migration_expected_count stCompat "c" 1 5).1 (by decide) (by decide),
   (validate_migration_expected_count stCompat "c" 1 5).2.1 (by decide)⟩

/-! ### C5 -/

/-- A concrete insert call: two vectors, caller-supplied `page_number` 7. -/
def c5insert : InsertData :=
  { colqwen_vecs := [[1], [2]], image_id := "g", page_number := 7, file_id := "f" }

/-- C5 counterexample: an insert call with two vectors writes two records,
but the record for the vector at position 1 carries `page_number` 7 — the
caller-supplied page number, not its position in the sequence.  This refutes
"the sequenceIndex (page_number) of the record for the i-th vector equals
i". -/
theorem insert_page_number_cx :
    (MilvusManager.insert c5insert).length = 2
    ∧ ((MilvusManager.insert c5insert).get? 1).map (fun r => r.page_number) = some 7
    ∧ (7 : Int) ≠ 1 := by
  decide

/-- C5 (amended): an insert call with `n` vectors writes exactly `n`
records in one bulk insert, carrying the vectors in sequence order, and
*every* record of the call carries the same caller-supplied `page_number`
(not its position); the caller `insert_to_milvus` issues one bulk insert per
embedding, passing the embedding's position in the file's sequence as that
shared `page_number`. -/
theorem insert_bulk_page_number (data : InsertData)
    (embeddings : List (List (List Rat))) (ids : List String) (fid : String) :
    (MilvusManager.insert data).length = data.colqwen_vecs.length
    ∧ ((MilvusManager.insert data).map (fun r => r.vector)) = data.colqwen_vecs
    ∧ (∀ r ∈ MilvusManager.insert data, r.page_number = data.page_number
        ∧ r.image_id = data.image_id ∧ r.file_id = data.file_id)
    ∧ (∀ i emb, embeddings[i]? = some emb →
        (insert_to_milvus embeddings ids fid)[i]?
          = some (MilvusManager.insert
              { colqwen_vecs := emb, image_id := (ids.get? i).getD "",
                page_number := (i : Int), file_id := fid })) := by
  refine ⟨?_, ?_, ?_, ?_⟩
  · simp [MilvusManager.insert]
  · simp [MilvusManager.insert, List.map_map, Function.comp_def]
  · intro r hr
    rcases List.mem_map.mp hr with ⟨v, _, hv⟩
    simp [← hv]
  · intro i emb hi
    simp [insert_to_milvus, List.getElem?_map, List.getElem?_enum, hi]

/-- The record written for the first vector of `c5insert`. -/
def c5rec : VectorRecord :=
  { vector := [1], image_id := "g", page_number := 7, file_id := "f",
    media_type := some "image", timestamp_start := some 0,
    timestamp_end := some 0, duration := some 0, segment_id := some "" }

theorem insert_bulk_page_number_witness :
    (MilvusManager.insert c5insert).length = c5insert.colqwen_vecs.length
    ∧ ((MilvusManager.insert c5insert).map (fun r => r.vector)) = c5insert.colqwen_vecs
    ∧ (c5rec.page_number = c5insert.page_number ∧ c5rec.image_id = c5insert.image_id
        ∧ c5rec.file_id = c5insert.file_id)
    ∧ (insert_to_milvus [[[1]]] ["a"] "f")[0]?
        = some (MilvusManager.insert
            { colqwen_vecs := [[1]], image_id := "a", page_number := 0, file_id := "f" }) :=
  ⟨(insert_bulk_page_number c5insert [[[1]]] ["a"] "f").1,
   (insert_bulk_page_number c5insert [[[1]]] ["a"] "f").2.1,
   (insert_bulk_page_number c5insert [[[1]]] ["a"] "f").2.2.1 c5rec (by decide),
   by
     have h := (insert_bulk_page_number c5insert [[[1]]] ["a"] "f").2.2.2 0 [[1]] rfl
     simpa using h⟩

/-! ### C2 -/

/-- C2 (amended): a group whose fetch returns zero vectors is assigned
score `0.0`; a group with at most 1000 vectors (the hardcoded fetch
`limit=1000`) is scored exactly as the spec's late-interaction similarity
over *all* vectors belonging to the group — beyond 1000 vectors the fetch
truncates, see the counterexample. -/
theorem rerank_late_interaction_score (gid : String) (data : List (List Rat))
    (rows : List VectorRecord) (old : Bool) :
    ((rows.filter (fun r => r.image_id == gid)).take 1000 = [] →
      (rerank_single_doc gid data rows old).1 = 0)
    ∧ ((rows.filter (fun r => r.image_id == gid)).length ≤ 1000 →
      rows.filter (fun r => r.image_id == gid) ≠ [] →
      (rerank_single_doc gid data rows old).1
        = lateInteractionScore data
            ((rows.filter (fun r => r.image_id == gid)).map (fun r => r.vector))) := by
  constructor
  · intro h
    simp [rerank_single_doc, h]
  · intro hle hne
    have htake := List.take_of_length_le hle
    rcases hl : rows.filter (fun r => r.image_id == gid) with _ | ⟨a, t⟩
    · exact absurd hl hne
    · rw [hl] at htake
      simp [rerank_single_doc, hl, htake, lateInteractionScore]

/-- The i-th row of the 1001-vector group below. -/
def mkBig (i : Nat) : VectorRecord :=
  { vector := [(i : Rat)], image_id := "g", page_number := 0, file_id := "f",
    media_type := none, timestamp_start := none, timestamp_end := none,
    duration := none, segment_id := none }

/-- A group of 1001 one-dimensional vectors `[0], [1], …, [1000]`. -/
def bigGroupRows : List VectorRecord :=
  (List.range 1001).map mkBig

lemma listMax_cons (a : Rat) (l : List Rat) (h : l ≠ []) :
    listMax (a :: l) = max a (listMax l) := by
  cases l with
  | nil => exact absurd rfl h
  | cons b t => rfl

lemma listMax_append_singleton (l : List Rat) (x : Rat) (h : l ≠ []) :
    listMax (l ++ [x]) = max (listMax l) x := by
  induction l with
  | nil => exact absurd rfl h
  | cons a t ih =>
    cases t with
    | nil => rfl
    | cons b t2 =>
      rw [List.cons_append, listMax_cons a ((b :: t2) ++ [x]) (by simp),
        ih (by simp), listMax_cons a (b :: t2) (by simp), max_assoc]

lemma listMax_cast_range : ∀ n : Nat,
    listMax ((List.range (n + 1)).map (fun i : Nat => (i : Rat))) = n := by
  intro n
  induction n with
  | zero => simp [listMax]
  | succ n ih =>
    rw [List.range_succ, List.map_append]
    simp only [List.map_cons, List.map_nil]
    rw [listMax_append_singleton _ _ (by simp), ih]
    exact max_eq_right (by exact_mod_cast Nat.le_succ n)

lemma rerank_score_eq (gid : String) (data : List (List Rat))
    (rows : List VectorRecord) (old : Bool)
    (h : (rows.filter (fun r => r.image_id == gid)).take 1000 ≠ []) :
    (rerank_single_doc gid data rows old).1
      = lateInteractionScore data
          (((rows.filter (fun r => r.image_id == gid)).take 1000).map (fun r => r.vector)) := by
  rcases hl : (rows.filter (fun r => r.image_id == gid)).take 1000 with _ | ⟨a, t⟩
  · exact absurd hl h
  · simp [rerank_single_doc, hl, lateInteractionScore]

/-- C2 counterexample: with 1001 vectors in the group, the fetch truncates
at `limit=1000`, so the computed score (999, the best inner product among
the first 1000 fetched vectors) differs from the spec\'s late-interaction
score over any vector belonging to the group (1000). -/
theorem rerank_cap_cx :
    (rerank_single_doc "g" [[1]] bigGroupRows false).1 = 999
    ∧ lateInteractionScore [[1]]
        ((bigGroupRows.filter (fun r => r.image_id == "g")).map (fun r => r.vector)) = 1000
    ∧ (999 : Rat) ≠ 1000 := by
  have hfilter : bigGroupRows.filter (fun r => r.image_id == "g") = bigGroupRows :=
    List.filter_eq_self.mpr (by
      intro r hr
      rcases List.mem_map.mp hr with ⟨i, _, rfl⟩
      simp [mkBig])
  have hvecs : ∀ n : Nat, ((List.range n).map mkBig).map (fun r => r.vector)
      = (List.range n).map (fun i : Nat => [(i : Rat)]) := by
    intro n; rw [List.map_map]; simp [Function.comp_def, mkBig]
  have hdot : ∀ n : Nat,
      ((List.range n).map (fun i : Nat => [(i : Rat)])).map (fun d => dotIP [1] d)
        = (List.range n).map (fun i : Nat => (i : Rat)) := by
    intro n; rw [List.map_map]; simp [Function.comp_def, dotIP]
  have hLIS : ∀ docs : List (List Rat),
      lateInteractionScore [[1]] docs = listMax (docs.map (fun d => dotIP [1] d)) := by
    intro docs; simp [lateInteractionScore]
  refine ⟨?_, ?_, by norm_num⟩
  · have htk : (bigGroupRows.filter (fun r => r.image_id == "g")).take 1000
        = (List.range 1000).map mkBig := by
      rw [hfilter]
      unfold bigGroupRows
      rw [← List.map_take, List.take_range]
      norm_num
    have hne : (bigGroupRows.filter (fun r => r.image_id == "g")).take 1000 ≠ [] := by
      rw [htk]; simp
    rw [rerank_score_eq "g" [[1]] bigGroupRows false hne, htk, hvecs, hLIS, hdot]
    have h999 := listMax_cast_range 999
    norm_num at h999
    exact h999
  · rw [hfilter, hLIS]
    unfold bigGroupRows
    rw [hvecs, hdot]
    have h1000 := listMax_cast_range 1000
    norm_num at h1000
    exact h1000

/-- Two records of group `"g"` used by the C2 witness. -/
def c2rows : List VectorRecord :=
  [{ vector := [1, 0], image_id := "g", page_number := 0, file_id := "f",
     media_type := some "image", timestamp_start := some 0, timestamp_end := some 0,
     duration := some 0, segment_id := some "" },
   { vector := [0, 1], image_id := "g", page_number := 1, file_id := "f",
     media_type := some "image", timestamp_start := some 0, timestamp_end := some 0,
     duration := some 0, segment_id := some "" }]

theorem rerank_late_interaction_score_witness :
    (rerank_single_doc "zzz" [[1]] c2rows false).1 = 0
    ∧ (rerank_single_doc "g" [[2, 3], [5, 4]] c2rows false).1
      = lateInteractionScore [[2, 3], [5, 4]]
          ((c2rows.filter (fun r => r.image_id == "g")).map (fun r => r.vector)) :=
  ⟨(rerank_late_interaction_score "zzz" [[1]] c2rows false).1 (by decide),
   (rerank_late_interaction_score "g" [[2, 3], [5, 4]] c2rows false).2
     (by decide) (by decide)⟩

/-! ### C3 -/

lemma mapOption_forall2 {α β : Type} {f : α → Option β} :
    ∀ {l : List α} {l2 : List β}, mapOption f l = some l2 →
      List.Forall₂ (fun a b => f a = some b) l l2 := by
  intro l
  induction l with
  | nil =>
    intro l2 h
    simp only [mapOption, Option.some.injEq] at h
    subst h
    exact List.Forall₂.nil
  | cons x xs ih =>
    intro l2 h
    rcases hfx : f x with _ | y <;> rcases hxs : mapOption f xs with _ | ys <;>
      simp [mapOption, hfx, hxs] at h
    subst h
    exact List.Forall₂.cons hfx (ih hxs)

lemma mapOption_isSome {α β : Type} {f : α → Option β} :
    ∀ {l : List α}, (∀ a ∈ l, (f a).isSome = true) →
      ∃ l2, mapOption f l = some l2 := by
  intro l
  induction l with
  | nil => exact fun _ => ⟨[], rfl⟩
  | cons x xs ih =>
    intro h
    rcases Option.isSome_iff_exists.mp (h x (List.mem_cons_self x xs)) with ⟨y, hy⟩
    rcases ih (fun a ha => h a (List.mem_cons_of_mem x ha)) with ⟨ys, hys⟩
    exact ⟨y :: ys, by simp [mapOption, hy, hys]⟩

lemma forall2_mem_right {α β : Type} {R : α → β → Prop} :
    ∀ {l : List α} {l2 : List β}, List.Forall₂ R l l2 →
      ∀ b ∈ l2, ∃ a ∈ l, R a b := by
  intro l l2 h
  induction h with
  | nil => intro b hb; cases hb
  | cons hR _ ih =>
    intro b hb
    rcases List.mem_cons.mp hb with hb | hb
    · exact ⟨_, List.mem_cons_self _ _, hb ▸ hR⟩
    · rcases ih b hb with ⟨a, ha, hab⟩
      exact ⟨a, List.mem_cons_of_mem _ ha, hab⟩

lemma forall2_pairwise {α β : Type} {R : α → β → Prop} {r : α → α → Prop}
    {r2 : β → β → Prop}
    (hc : ∀ a b a2 b2, R a b → R a2 b2 → r a a2 → r2 b b2) :
    ∀ {l : List α} {l2 : List β}, List.Forall₂ R l l2 →
      l.Pairwise r → l2.Pairwise r2 := by
  intro l l2 h
  induction h with
  | nil => intro _; exact List.Pairwise.nil
  | cons hab htail ih =>
    intro hp
    rcases List.pairwise_cons.mp hp with ⟨hhead, htl⟩
    refine List.pairwise_cons.mpr ⟨?_, ih htl⟩
    intro b2 hb2
    rcases forall2_mem_right htail b2 hb2 with ⟨a2, ha2, hR2⟩
    exact hc _ _ a2 b2 hab hR2 (hhead a2 ha2)

lemma forall2_map_eq {α β γ : Type} {R : α → β → Prop} {g : β → γ} {f : α → γ}
    (hc : ∀ a b, R a b → g b = f a) :
    ∀ {l : List α} {l2 : List β}, List.Forall₂ R l l2 → l2.map g = l.map f := by
  intro l l2 h
  induction h with
  | nil => rfl
  | cons hab _ ih => simp [ih, hc _ _ hab]

lemma buildEntry_score_image {p : Rat × GroupMeta} {e : SearchEntry}
    (h : buildEntry p = some e) : e.score = p.1 ∧ e.image_id = p.2.image_id := by
  unfold buildEntry at h
  split at h
  · cases h
    exact ⟨rfl, rfl⟩
  · cases h

lemma rerank_image_id (gid : String) (data : List (List Rat))
    (rows : List VectorRecord) (old : Bool) :
    (rerank_single_doc gid data rows old).2.image_id = gid := by
  cases h : (rows.filter (fun r => r.image_id == gid)).take 1000 with
  | nil => simp [rerank_single_doc, h]
  | cons a t =>
    simp only [rerank_single_doc, h]
    split <;> rfl

/-- C3 (confirmed): whenever `_process_search_results` returns a result
list, that list has at most `topk` entries, is sorted by score descending,
contains each distinct `groupId` at most once, and only contains `groupId`s
that appear among the coarse hits (each distinct coarse-hit group is scored
once — the group set is deduplicated before scoring). -/
theorem process_results_topk_sorted_nodup (results : List (List VectorRecord))
    (data : List (List Rat)) (rows : List VectorRecord) (topk : Nat) (old : Bool)
    (out : List SearchEntry)
    (h : process_search_results results data rows topk old = some out) :
    out.length ≤ topk
    ∧ List.Sorted (fun a b : SearchEntry => b.score ≤ a.score) out
    ∧ (out.map (fun e => e.image_id)).Nodup
    ∧ ∀ e ∈ out, e.image_id ∈ results.flatten.map (fun r => r.image_id) := by
  unfold process_search_results at h
  dsimp only at h
  set ids := (results.flatten.map (fun r => r.image_id)).dedup with hids
  set scores := ids.map (fun gid => rerank_single_doc gid data rows old) with hscores
  set sorted := scores.insertionSort scoreGe with hsorted
  have hf2 := mapOption_forall2 h
  have hlen : out.length = (sorted.take topk).length :=
    (List.Forall₂.length_eq hf2).symm
  have hmapeq : out.map (fun e => e.image_id)
      = (sorted.take topk).map (fun p => p.2.image_id) :=
    @forall2_map_eq (Rat × GroupMeta) SearchEntry String
      (fun a b => buildEntry a = some b) (fun e => e.image_id)
      (fun p => p.2.image_id)
      (fun a b hab => (buildEntry_score_image hab).2) _ _ hf2
  have hscores_ids : scores.map (fun p => p.2.image_id) = ids := by
    rw [hscores, List.map_map]
    have hcomp : ((fun p : Rat × GroupMeta => p.2.image_id)
        ∘ fun gid => rerank_single_doc gid data rows old)
        = fun gid => (rerank_single_doc gid data rows old).2.image_id := rfl
    rw [hcomp]
    rw [List.map_congr_left (fun gid _ => rerank_image_id gid data rows old)]
    exact List.map_id ids
  refine ⟨?_, ?_, ?_, ?_⟩
  · rw [hlen]; exact List.length_take_le topk sorted
  · have hs : List.Sorted scoreGe sorted := List.sorted_insertionSort scoreGe scores
    have hst : List.Sorted scoreGe (sorted.take topk) :=
      List.Pairwise.sublist (List.take_sublist topk sorted) hs
    exact forall2_pairwise
      (fun a b a2 b2 hab hab2 hr => by
        rw [(buildEntry_score_image hab2).1, (buildEntry_score_image hab).1]
        exact hr) hf2 hst
  · rw [hmapeq, List.map_take]
    have hnodup1 : (scores.map (fun p => p.2.image_id)).Nodup := by
      rw [hscores_ids]; exact List.nodup_dedup _
    have hperm : List.Perm (sorted.map (fun p => p.2.image_id))
        (scores.map (fun p => p.2.image_id)) :=
      (List.perm_insertionSort scoreGe scores).map _
    have hnodup2 : (sorted.map (fun p => p.2.image_id)).Nodup :=
      (hperm.nodup_iff).mpr hnodup1
    exact List.Nodup.sublist (List.take_sublist _ _) hnodup2
  · intro e he
    rcases forall2_mem_right hf2 e he with ⟨p, hp, hpe⟩
    have hp2 : p ∈ sorted := List.take_subset _ _ hp
    have hp3 : p ∈ scores := (List.mem_insertionSort scoreGe).mp hp2
    have hmem : p.2.image_id ∈ scores.map (fun p => p.2.image_id) :=
      List.mem_map_of_mem _ hp3
    rw [hscores_ids] at hmem
    rw [(buildEntry_score_image hpe).2]
    exact List.mem_dedup.mp hmem

/-- A concrete new-schema record for the C3 witness. -/
def c3rec : VectorRecord :=
  { vector := [2], image_id := "a", page_number := 1, file_id := "f",
    media_type := some "audio", timestamp_start := some 1, timestamp_end := some 2,
    duration := some 1, segment_id := some "a" }

/-- The result list `_process_search_results` produces for the C3 witness. -/
def c3out : List SearchEntry :=
  [{ score := 6, image_id := "a", file_id := some "f", page_number := some 1,
     media_type := "audio", timestamp_start := 1, timestamp_end := 2,
     duration := 1, segment_id := "a" }]

lemma c3_process_eval :
    process_search_results [[c3rec]] [[3]] [c3rec] 5 false = some c3out := by
  norm_num [process_search_results, rerank_single_doc, buildEntry, mapOption,
    listMax, dotIP, c3rec, c3out, List.dedup_cons_of_not_mem, List.dedup_nil]

theorem process_results_topk_sorted_nodup_witness :
    c3out.length ≤ 5
    ∧ List.Sorted (fun a b : SearchEntry => b.score ≤ a.score) c3out
    ∧ (c3out.map (fun e => e.image_id)).Nodup :=
  ⟨(process_results_topk_sorted_nodup [[c3rec]] [[3]] [c3rec] 5 false c3out c3_process_eval).1,
   (process_results_topk_sorted_nodup [[c3rec]] [[3]] [c3rec] 5 false c3out c3_process_eval).2.1,
   (process_results_topk_sorted_nodup [[c3rec]] [[3]] [c3rec] 5 false c3out c3_process_eval).2.2.1⟩

/-! ### C6 -/

lemma rerank_old_defaults (gid : String) (data : List (List Rat))
    (rows : List VectorRecord)
    (h : (rows.filter (fun r => r.image_id == gid)).take 1000 ≠ []) :
    (rerank_single_doc gid data rows true).2.media_type = some "image"
    ∧ (rerank_single_doc gid data rows true).2.timestamp_start = some 0
    ∧ (rerank_single_doc gid data rows true).2.timestamp_end = some 0
    ∧ (rerank_single_doc gid data rows true).2.duration = some 0
    ∧ (rerank_single_doc gid data rows true).2.segment_id = some "" := by
  cases hf : (rows.filter (fun r => r.image_id == gid)).take 1000 with
  | nil => exact absurd hf h
  | cons a t => simp [rerank_single_doc, hf]

lemma buildEntry_of_defaults {p : Rat × GroupMeta}
    (hmt : p.2.media_type = some "image") (hts : p.2.timestamp_start = some 0)
    (hte : p.2.timestamp_end = some 0) (hdu : p.2.duration = some 0)
    (hsi : p.2.segment_id = some "") :
    buildEntry p = some {
      score := p.1, image_id := p.2.image_id,
      file_id := p.2.file_id, page_number := p.2.page_number,
      media_type := "image", timestamp_start := 0, timestamp_end := 0,
      duration := 0, segment_id := "" } := by
  unfold buildEntry
  rw [hmt, hts, hte, hdu, hsi]

/-- C6 (confirmed): on the legacy-schema read path
(`use_old_schema=True`), whenever every candidate group has at least one
stored vector, the call succeeds and every returned record carries the
documented defaults for the optional fields: `media_type="image"`,
`timestamp_start=0.0`, `timestamp_end=0.0`, `duration=0.0`,
`segment_id=""` — no reader fails due to a missing optional field. -/
theorem old_schema_default_backfill (results : List (List VectorRecord))
    (data : List (List Rat)) (rows : List VectorRecord) (topk : Nat)
    (h : ∀ gid ∈ (results.flatten.map (fun r => r.image_id)).dedup,
        (rows.filter (fun r => r.image_id == gid)).take 1000 ≠ []) :
    (process_search_results results data rows topk true).isSome = true
    ∧ ∀ e ∈ (process_search_results results data rows topk true).getD [],
        e.media_type = "image" ∧ e.timestamp_start = 0 ∧ e.timestamp_end = 0
        ∧ e.duration = 0 ∧ e.segment_id = "" := by
  unfold process_search_results
  dsimp only
  set ids := (results.flatten.map (fun r => r.image_id)).dedup with hids
  set scores := ids.map (fun gid => rerank_single_doc gid data rows true) with hscores
  set sorted := scores.insertionSort scoreGe with hsorted
  have hq : ∀ p ∈ sorted.take topk,
      p.2.media_type = some "image" ∧ p.2.timestamp_start = some 0
      ∧ p.2.timestamp_end = some 0 ∧ p.2.duration = some 0
      ∧ p.2.segment_id = some "" := by
    intro p hp
    have hp2 : p ∈ scores := (List.mem_insertionSort scoreGe).mp (List.take_subset _ _ hp)
    rcases List.mem_map.mp hp2 with ⟨gid, hgid, rfl⟩
    exact rerank_old_defaults gid data rows (h gid hgid)
  have hsome : ∀ p ∈ sorted.take topk, (buildEntry p).isSome = true := by
    intro p hp
    rcases hq p hp with ⟨h1, h2, h3, h4, h5⟩
    rw [buildEntry_of_defaults h1 h2 h3 h4 h5]
    rfl
  rcases mapOption_isSome hsome with ⟨out, hout⟩
  rw [hout]
  refine ⟨rfl, ?_⟩
  intro e he
  simp only [Option.getD_some] at he
  rcases forall2_mem_right (mapOption_forall2 hout) e he with ⟨p, hp, hpe⟩
  rcases hq p hp with ⟨h1, h2, h3, h4, h5⟩
  rw [buildEntry_of_defaults h1 h2 h3 h4 h5] at hpe
  cases hpe
  exact ⟨rfl, rfl, rfl, rfl, rfl⟩

/-- A legacy record used by the C6 witness (group `"b"`). -/
def c6rec : VectorRecord :=
  { vector := [3], image_id := "b", page_number := 2, file_id := "f2",
    media_type := none, timestamp_start := none, timestamp_end := none,
    duration := none, segment_id := none }

theorem old_schema_default_backfill_witness :
    (process_search_results [[c6rec]] [[1]] [c6rec] 3 true).isSome = true
    ∧ ((process_search_results [[c6rec]] [[1]] [c6rec] 3 true).getD []).length = 1 :=
  ⟨(old_schema_default_backfill [[c6rec]] [[1]] [c6rec] 3 (by decide)).1, by
    norm_num [process_search_results, rerank_single_doc, buildEntry, mapOption,
      listMax, dotIP, c6rec, List.dedup_cons_of_not_mem, List.dedup_nil]⟩

/-! ### C4 -/

/-- C4 (amended): when both the mediaType and the time-range filters are
supplied they are combined with AND and applied to the *coarse* vector-level
search: every coarse hit satisfies both predicates.  (The records finally
returned to the caller take their metadata from the first record of an
unfiltered group fetch, which need not satisfy the filters — see the
counterexample.) -/
theorem coarse_hits_satisfy_filters (rows : List VectorRecord)
    (data : List (List Rat)) (m : String) (s e : Rat)
    (hits : List VectorRecord) (r : VectorRecord)
    (h1 : hits ∈ coarse_search rows data (some m) (some (s, e)))
    (h2 : r ∈ hits) :
    (matchesFilters (some m) (some (s, e)) r = (mediaOk m r && timeOk s e r))
    ∧ r.media_type = some m
    ∧ ∃ a b, r.timestamp_start = some a ∧ r.timestamp_end = some b
        ∧ s ≤ a ∧ b ≤ e := by
  rcases List.mem_map.mp h1 with ⟨q, _, rfl⟩
  have hr1 : r ∈ (rows.filter (matchesFilters (some m) (some (s, e)))).insertionSort (ipGe q) :=
    List.take_subset _ _ h2
  have hr2 : r ∈ rows.filter (matchesFilters (some m) (some (s, e))) :=
    (List.mem_insertionSort (ipGe q)).mp hr1
  have h3 := (List.mem_filter.mp hr2).2
  simp only [matchesFilters] at h3
  refine ⟨rfl, ?_, ?_⟩
  · have hm := ((Bool.and_eq_true _ _).mp h3).1
    simpa [mediaOk] using hm
  · have ht := ((Bool.and_eq_true _ _).mp h3).2
    rcases hts : r.timestamp_start with _ | a <;>
      rcases hte : r.timestamp_end with _ | b <;>
      simp [timeOk, hts, hte] at ht
    exact ⟨a, b, rfl, rfl, ht.1, ht.2⟩

/-- A row of group `"g"` violating the filters (image, timestamps 0). -/
def c4row1 : VectorRecord :=
  { vector := [1], image_id := "g", page_number := 0, file_id := "f",
    media_type := some "image", timestamp_start := some 0, timestamp_end := some 0,
    duration := some 0, segment_id := some "" }

/-- A row of the same group `"g"` satisfying the filters. -/
def c4row2 : VectorRecord :=
  { vector := [1], image_id := "g", page_number := 1, file_id := "f",
    media_type := some "audio", timestamp_start := some 20, timestamp_end := some 30,
    duration := some 10, segment_id := some "g" }

/-- C4 counterexample: a search with `media_type_filter="audio"` and
`time_range_filter=(10, 40)` over a store whose group `"g"` holds one
matching and one non-matching row returns the group with metadata taken
from the group's *first* fetched record — `media_type="image"` and
`timestamp_start=0`, violating both filter predicates.  This refutes "every
returned record satisfies mediaType equal to the filter value and
timestampStart >= start". -/
theorem filtered_search_unfiltered_metadata_cx :
    MilvusManager.search [c4row1, c4row2] [[1]] 1 (some "audio") (some (10, 40))
      = some [{ score := 1, image_id := "g", file_id := some "f",
                page_number := some 0, media_type := "image",
                timestamp_start := 0, timestamp_end := 0,
                duration := 0, segment_id := "" }]
    ∧ ("image" : String) ≠ "audio"
    ∧ ¬((10 : Rat) ≤ 0) := by
  refine ⟨?_, by decide, by norm_num⟩
  norm_num [MilvusManager.search, search_with_new_schema, coarse_search,
    process_search_results, rerank_single_doc, buildEntry, mapOption,
    matchesFilters, mediaOk, timeOk, dotIP, listMax, ipGe, scoreGe,
    c4row1, c4row2, List.dedup_cons_of_not_mem, List.dedup_nil]

theorem coarse_hits_satisfy_filters_witness :
    (matchesFilters (some "audio") (some ((10 : Rat), (40 : Rat))) c4row2
      = (mediaOk "audio" c4row2 && timeOk 10 40 c4row2))
    ∧ c4row2.media_type = some "audio" :=
  ⟨(coarse_hits_satisfy_filters [c4row2] [[1]] "audio" 10 40 [c4row2] c4row2
      (by norm_num [coarse_search, matchesFilters, mediaOk, timeOk, c4row2])
      (by simp)).1,
   (coarse_hits_satisfy_filters [c4row2] [[1]] "audio" 10 40 [c4row2] c4row2
      (by norm_num [coarse_search, matchesFilters, mediaOk, timeOk, c4row2])
      (by simp)).2.1⟩
